import Mathlib

/-!
Shallow embedding of the rPocMon process monitor.

The Rust sources embedded here are:
- src/types.rs   : the data model (ProcessInfo, NetworkConnection,
  MonitorSnapshot, SystemSnapshot);
- src/stealth.rs : the visibility policy (StealthConfig) with its matching
  logic and in-memory mutations, plus configuration loading;
- src/monitor.rs : the snapshot builder (collect_snapshot), the presenter
  sort (display_processes) and the new-process detector
  (check_for_new_processes);
- src/main.rs    : the dispatch between the stealth editor and the monitor.

Machine integers u32 / u64 / usize are modelled as Nat (the code performs no
arithmetic on them that could wrap).  Rust f32 / f64 values are modelled as
Rat: the code only compares them, never computes with them.  Rust String is
modelled as Lean String, with the case-insensitive substring search of
str::contains / str::to_lowercase spelled out on the underlying character
lists.  HashMap<String, String> is modelled as an association list whose
order stands for the (arbitrary but fixed) iteration order of the map.
Vec<T> is modelled as List T.  File-system access is modelled by passing the
optional file contents explicitly, and serde_json::from_str by a parse
function passed as a parameter.
-/

/-! ### Data model (src/types.rs) -/

/-- One process row, mirroring `ProcessInfo` in src/types.rs. -/
structure ProcessInfo where
  pid : Nat
  name : String
  cmd : List String
  cpu_usage : Rat
  memory : Nat
  parent_pid : Option Nat
  start_time : Nat
  user_id : Option Nat
  status : String
  exe_path : Option String
deriving DecidableEq

/-- One (coarse) network row, mirroring `NetworkConnection` in src/types.rs. -/
structure NetworkConnection where
  process_name : String
  pid : Nat
  local_addr : String
  remote_addr : String
  state : String
  protocol : String
deriving DecidableEq

/-- Aggregate system counters, mirroring `SystemSnapshot` in src/types.rs.
The timestamp-free numeric fields are modelled directly. -/
structure SystemSnapshot where
  total_memory : Nat
  used_memory : Nat
  cpu_count : Nat
  load_average : Rat
  uptime : Nat
deriving DecidableEq

/-- One sampling-cycle snapshot, mirroring `MonitorSnapshot` in src/types.rs.
The `DateTime<Local>` timestamp is modelled as the string it serializes to. -/
structure MonitorSnapshot where
  timestamp : String
  processes : List ProcessInfo
  network_connections : List NetworkConnection
  system_info : SystemSnapshot
deriving DecidableEq

/-! ### String matching helpers

Rust `str::contains(&str)` is substring search; `to_lowercase` maps every
character to lower case.  We model them on `List Char` / `String`. -/

/-- `listStartsWith s t` is true when `t` is an initial segment of `s`. -/
def listStartsWith : List Char → List Char → Bool
  | _, [] => true
  | [], _ :: _ => false
  | a :: s, b :: t => a == b && listStartsWith s t

/-- `listContainsSub s t` is true when `t` occurs contiguously inside `s`;
this models Rust `str::contains` on the character lists. -/
def listContainsSub (s t : List Char) : Bool :=
  match s with
  | [] => listStartsWith [] t
  | _ :: s' => listStartsWith s t || listContainsSub s' t

/-- Substring test on strings, modelling Rust `str::contains`. -/
def strContains (s t : String) : Bool :=
  listContainsSub s.data t.data

/-- Rust `str::to_lowercase`, modelled character by character. -/
def lowerStr (s : String) : String :=
  String.mk (s.data.map Char.toLower)

/-- Case-insensitive substring test: models the repeated Rust idiom
`a.to_lowercase().contains(&b.to_lowercase())`. -/
def containsLower (a b : String) : Bool :=
  strContains (lowerStr a) (lowerStr b)

/-! ### Visibility policy (src/stealth.rs) -/

/-- The persisted stealth policy, mirroring `StealthConfig` in src/stealth.rs.
`renamed_processes` is a `HashMap<String, String>` in the source; the list
order models its iteration order. -/
structure StealthConfig where
  hidden_processes : List String
  renamed_processes : List (String × String)
  hidden_pids : List Nat
deriving DecidableEq

/-- The `Default` impl for `StealthConfig`: all three fields empty. -/
def StealthConfig.defaultConfig : StealthConfig :=
  { hidden_processes := [], renamed_processes := [], hidden_pids := [] }

/-- `StealthManager::hide_process`: push the name unless already present. -/
def StealthConfig.hide_process (c : StealthConfig) (process_name : String) :
    StealthConfig :=
  if c.hidden_processes.contains process_name then c
  else { c with hidden_processes := c.hidden_processes ++ [process_name] }

/-- `StealthManager::unhide_process`: retain entries different from the
argument (exact, case-sensitive comparison). -/
def StealthConfig.unhide_process (c : StealthConfig) (process_name : String) :
    StealthConfig :=
  { c with hidden_processes :=
      c.hidden_processes.filter (fun p => p != process_name) }

/-- `StealthManager::hide_pid`: push the pid unless already present. -/
def StealthConfig.hide_pid (c : StealthConfig) (pid : Nat) : StealthConfig :=
  if c.hidden_pids.contains pid then c
  else { c with hidden_pids := c.hidden_pids ++ [pid] }

/-- `StealthManager::unhide_pid`: retain pids different from the argument. -/
def StealthConfig.unhide_pid (c : StealthConfig) (pid : Nat) : StealthConfig :=
  { c with hidden_pids := c.hidden_pids.filter (fun p => p != pid) }

/-- Exact-key lookup in the association list, modelling `HashMap::get`. -/
def lookupExact : List (String × String) → String → Option String
  | [], _ => none
  | (k, v) :: rest, key => if k == key then some v else lookupExact rest key

/-- `HashMap::insert`: replace the value at an existing key, else add the
entry; models `StealthManager::rename_process`. -/
def StealthConfig.rename_process (c : StealthConfig)
    (original_name display_name : String) : StealthConfig :=
  let updated :=
    if c.renamed_processes.any (fun kv => kv.1 == original_name) then
      c.renamed_processes.map
        (fun kv => if kv.1 == original_name then (kv.1, display_name) else kv)
    else c.renamed_processes ++ [(original_name, display_name)]
  { c with renamed_processes := updated }

/-- `StealthManager::remove_rename`: drop the entry with the exact key. -/
def StealthConfig.remove_rename (c : StealthConfig) (original_name : String) :
    StealthConfig :=
  { c with renamed_processes :=
      c.renamed_processes.filter (fun kv => kv.1 != original_name) }

/-- `StealthManager::clear_all`: empty all three fields. -/
def StealthConfig.clear_all (_c : StealthConfig) : StealthConfig :=
  StealthConfig.defaultConfig

/-- `StealthManager::is_process_hidden`: some hidden entry occurs in the
process name, compared case-insensitively. -/
def StealthConfig.is_process_hidden (c : StealthConfig)
    (process_name : String) : Bool :=
  c.hidden_processes.any (fun hidden => containsLower process_name hidden)

/-- `StealthManager::is_pid_hidden`: exact membership in `hidden_pids`. -/
def StealthConfig.is_pid_hidden (c : StealthConfig) (pid : Nat) : Bool :=
  c.hidden_pids.contains pid

/-- `StealthManager::get_display_name`: exact-key lookup first, then the
first rename entry whose key occurs case-insensitively in the name, else the
name unchanged. -/
def StealthConfig.get_display_name (c : StealthConfig)
    (original_name : String) : String :=
  match lookupExact c.renamed_processes original_name with
  | some renamed => renamed
  | none =>
    match c.renamed_processes.find?
        (fun kv => containsLower original_name kv.1) with
    | some kv => kv.2
    | none => original_name

/-! ### Configuration loading (src/stealth.rs, StealthManager::new / load_config)

The file system is modelled by the optional file contents (`none` = the file
is absent), and `serde_json::from_str::<StealthConfig>` by a `parse`
function passed as a parameter (it returns `none` exactly when the text does
not parse).  The write of the freshly created default file is elided: only
the returned configuration is modelled. -/

/-- Failure kinds surfaced by the loader. -/
inductive StealthLoadError where
  | configCorrupt
deriving DecidableEq

/-- `StealthManager::load_config`: absent file yields (and persists) the
default config; an existing file is parsed, and a parse failure is an
error. -/
def load_config (parse : String → Option StealthConfig)
    (file : Option String) : Except StealthLoadError StealthConfig :=
  match file with
  | none => .ok StealthConfig.defaultConfig
  | some content =>
    match parse content with
    | some config => .ok config
    | none => .error .configCorrupt

/-- `StealthManager::new`: `load_config(path).unwrap_or_default()` — any
load error is replaced by the default configuration. -/
def stealth_manager_new (parse : String → Option StealthConfig)
    (file : Option String) : StealthConfig :=
  match load_config parse file with
  | .ok config => config
  | .error _ => StealthConfig.defaultConfig

/-! ### Main dispatch (src/main.rs)

`main` runs the interactive stealth editor and exits when `--filter` is
given; only otherwise does it construct and run the `ProcessMonitor`. -/

/-- What `main` does, as a function of the optional `--filter` argument. -/
inductive MainAction where
  | stealthEditor
  | runMonitor
deriving DecidableEq

/-- The branch taken by `main` in src/main.rs. -/
def main_dispatch (filter : Option String) : MainAction :=
  match filter with
  | some _ => .stealthEditor
  | none => .runMonitor

/-! ### Snapshot builder (src/monitor.rs, ProcessMonitor::collect_snapshot)

The metrics source (sysinfo) is an external collaborator: its per-process
output is modelled as the list of `ProcessInfo` values the conversion loop
produces, in enumeration order, and the per-interface counters as
`InterfaceCounters`.  `collect_snapshot` reads the filter and network flag
from `Args`; they are passed explicitly here. -/

/-- Raw counters of one network interface, as read from sysinfo. -/
structure InterfaceCounters where
  name : String
  received : Nat
  transmitted : Nat
deriving DecidableEq

/-- The per-process test applied by the collection loop: with a filter
present, keep the process only when the raw name contains the filter
case-insensitively; with no filter, keep everything. -/
def filter_keeps (filter : Option String) (name : String) : Bool :=
  match filter with
  | some f => containsLower name f
  | none => true

/-- The process list built by `collect_snapshot`: each enumerated process is
pushed unless the name filter rejects it.  No visibility policy is consulted
anywhere in this loop. -/
def collect_processes (filter : Option String) (procs : List ProcessInfo) :
    List ProcessInfo :=
  procs.filter (fun p => filter_keeps filter p.name)

/-- The network rows built by `collect_snapshot`: only when the network flag
is set, one row per interface with any traffic. -/
def collect_network (network : Bool) (ifaces : List InterfaceCounters) :
    List NetworkConnection :=
  if network then
    (ifaces.filter (fun i => i.received > 0 || i.transmitted > 0)).map
      (fun i =>
        { process_name := "Interface: " ++ i.name
          pid := 0
          local_addr := "0.0.0.0"
          remote_addr := "0.0.0.0"
          state := "ACTIVE"
          protocol := "TCP/UDP" })
  else []

/-- `ProcessMonitor::collect_snapshot`, assembled from the pieces above. -/
def collect_snapshot (filter : Option String) (network : Bool)
    (procs : List ProcessInfo) (ifaces : List InterfaceCounters)
    (system_info : SystemSnapshot) (now : String) : MonitorSnapshot :=
  { timestamp := now
    processes := collect_processes filter procs
    network_connections := collect_network network ifaces
    system_info := system_info }

/-! ### Presenter (src/monitor.rs, ProcessMonitor::display_processes)

The rows actually printed: the snapshot process list, stably sorted by the
comparator `b.cpu_usage.partial_cmp(&a.cpu_usage)` (descending cpu; Rust
`sort_by` is stable), truncated to the first 20 rows by `.take(20)`. -/

/-- The Boolean order used by the stable sort: `a` may precede `b` when
`b.cpu_usage ≤ a.cpu_usage` (descending cpu). -/
def cpuDescLE (a b : ProcessInfo) : Bool :=
  decide (b.cpu_usage ≤ a.cpu_usage)

/-- The sorted, truncated row list rendered by `display_processes`. -/
def display_rows (s : MonitorSnapshot) : List ProcessInfo :=
  (s.processes.mergeSort cpuDescLE).take 20

/-! ### Delta detection (src/monitor.rs, ProcessMonitor::check_for_new_processes) -/

/-- The PID set of a snapshot, as collected into the `current_pids`
hash set. -/
def MonitorSnapshot.pidSet (s : MonitorSnapshot) : Finset Nat :=
  (s.processes.map (fun p => p.pid)).toFinset

/-- `current_pids.difference(&previous_pids)`: the new-PID set computed by
`check_for_new_processes` (only evaluated when alerting is on). -/
def new_pids (previous current : Finset Nat) : Finset Nat :=
  current \ previous

/-- Whether the alert panel is printed for this cycle: alerting must be on,
the new-PID set non-empty, and the previous-process map non-empty. -/
def alert_rendered (alert : Bool) (previous : Finset Nat)
    (s : MonitorSnapshot) : Bool :=
  alert && decide ((new_pids previous s.pidSet).Nonempty)
    && decide (previous.Nonempty)

/-- The updated `previous_processes` key set after the cycle: cleared and
refilled from the snapshot, whether or not alerting is on. -/
def next_previous (s : MonitorSnapshot) : Finset Nat :=
  s.pidSet

/-! ### Structured serialization (serde derive on the data model)

`StealthConfig` and `MonitorSnapshot` derive serde Serialize / Deserialize
and are written with `serde_json::to_string_pretty` and read back with
`serde_json::from_str`.  We model the structured form as a JSON value tree:
struct fields in declaration order become object entries, `Vec` becomes an
array, `HashMap<String, String>` becomes an object, `Option` becomes null or
the value, unsigned integers become numbers, floats become numbers (their
exact value), and the chrono timestamp becomes its string form. -/

/-- JSON value tree, mirroring `serde_json::Value` as used by the derived
serializers (numbers split into the unsigned-integer and float cases that
occur in this data model). -/
inductive Json where
  | null
  | num (n : Nat)
  | flo (q : Rat)
  | str (s : String)
  | arr (items : List Json)
  | obj (fields : List (String × Json))

/-- Field access on a serialized object, by field name. -/
def Json.getField : List (String × Json) → String → Option Json
  | [], _ => none
  | (k, v) :: rest, key => if k == key then some v else Json.getField rest key

/-- Expect an unsigned integer. -/
def Json.asNat : Json → Option Nat
  | .num n => some n
  | _ => none

/-- Expect a float. -/
def Json.asFlo : Json → Option Rat
  | .flo q => some q
  | _ => none

/-- Expect a string. -/
def Json.asStr : Json → Option String
  | .str s => some s
  | _ => none

/-- Expect an optional unsigned integer (`Option<u32>`: null or number). -/
def Json.asOptNat : Json → Option (Option Nat)
  | .null => some none
  | .num n => some (some n)
  | _ => none

/-- Expect an optional string (`Option<String>`: null or string). -/
def Json.asOptStr : Json → Option (Option String)
  | .null => some none
  | .str s => some (some s)
  | _ => none

/-- Serialize `Option<u32>`. -/
def jsonOfOptNat : Option Nat → Json
  | none => .null
  | some n => .num n

/-- Serialize `Option<String>`. -/
def jsonOfOptStr : Option String → Json
  | none => .null
  | some s => .str s

/-- Deserialize each element of an array with `f`, failing if any element
fails (the derived `Vec<T>` deserializer). -/
def parseList (f : Json → Option α) : List Json → Option (List α)
  | [] => some []
  | j :: rest =>
    match f j, parseList f rest with
    | some a, some as_ => some (a :: as_)
    | _, _ => none

/-- Expect an array and deserialize its elements with `f`. -/
def Json.asListOf (f : Json → Option α) : Json → Option (List α)
  | .arr items => parseList f items
  | _ => none

/-- Deserialize the entry list of a string-to-string object. -/
def parseStrPairs : List (String × Json) → Option (List (String × String))
  | [] => some []
  | (k, .str v) :: rest =>
    match parseStrPairs rest with
    | some tail => some ((k, v) :: tail)
    | none => none
  | _ :: _ => none

/-- Expect an object all of whose values are strings
(`HashMap<String, String>`). -/
def Json.asStrPairs : Json → Option (List (String × String))
  | .obj fields => parseStrPairs fields
  | _ => none

/-- Serializer for `ProcessInfo`, field for field in declaration order. -/
def ProcessInfo.toJson (p : ProcessInfo) : Json :=
  .obj [("pid", .num p.pid),
        ("name", .str p.name),
        ("cmd", .arr (p.cmd.map Json.str)),
        ("cpu_usage", .flo p.cpu_usage),
        ("memory", .num p.memory),
        ("parent_pid", jsonOfOptNat p.parent_pid),
        ("start_time", .num p.start_time),
        ("user_id", jsonOfOptNat p.user_id),
        ("status", .str p.status),
        ("exe_path", jsonOfOptStr p.exe_path)]

/-- Deserializer for `ProcessInfo`. -/
def ProcessInfo.ofJson (j : Json) : Option ProcessInfo :=
  match j with
  | .obj fields => do
    let pid ← (Json.getField fields "pid").bind Json.asNat
    let name ← (Json.getField fields "name").bind Json.asStr
    let cmd ← (Json.getField fields "cmd").bind (Json.asListOf Json.asStr)
    let cpu_usage ← (Json.getField fields "cpu_usage").bind Json.asFlo
    let memory ← (Json.getField fields "memory").bind Json.asNat
    let parent_pid ← (Json.getField fields "parent_pid").bind Json.asOptNat
    let start_time ← (Json.getField fields "start_time").bind Json.asNat
    let user_id ← (Json.getField fields "user_id").bind Json.asOptNat
    let status ← (Json.getField fields "status").bind Json.asStr
    let exe_path ← (Json.getField fields "exe_path").bind Json.asOptStr
    some ⟨pid, name, cmd, cpu_usage, memory, parent_pid, start_time,
          user_id, status, exe_path⟩
  | _ => none

/-- Serializer for `NetworkConnection`. -/
def NetworkConnection.toJson (c : NetworkConnection) : Json :=
  .obj [("process_name", .str c.process_name),
        ("pid", .num c.pid),
        ("local_addr", .str c.local_addr),
        ("remote_addr", .str c.remote_addr),
        ("state", .str c.state),
        ("protocol", .str c.protocol)]

/-- Deserializer for `NetworkConnection`. -/
def NetworkConnection.ofJson (j : Json) : Option NetworkConnection :=
  match j with
  | .obj fields => do
    let process_name ← (Json.getField fields "process_name").bind Json.asStr
    let pid ← (Json.getField fields "pid").bind Json.asNat
    let local_addr ← (Json.getField fields "local_addr").bind Json.asStr
    let remote_addr ← (Json.getField fields "remote_addr").bind Json.asStr
    let state ← (Json.getField fields "state").bind Json.asStr
    let protocol ← (Json.getField fields "protocol").bind Json.asStr
    some ⟨process_name, pid, local_addr, remote_addr, state, protocol⟩
  | _ => none

/-- Serializer for `SystemSnapshot`. -/
def SystemSnapshot.toJson (s : SystemSnapshot) : Json :=
  .obj [("total_memory", .num s.total_memory),
        ("used_memory", .num s.used_memory),
        ("cpu_count", .num s.cpu_count),
        ("load_average", .flo s.load_average),
        ("uptime", .num s.uptime)]

/-- Deserializer for `SystemSnapshot`. -/
def SystemSnapshot.ofJson (j : Json) : Option SystemSnapshot :=
  match j with
  | .obj fields => do
    let total_memory ← (Json.getField fields "total_memory").bind Json.asNat
    let used_memory ← (Json.getField fields "used_memory").bind Json.asNat
    let cpu_count ← (Json.getField fields "cpu_count").bind Json.asNat
    let load_average ← (Json.getField fields "load_average").bind Json.asFlo
    let uptime ← (Json.getField fields "uptime").bind Json.asNat
    some ⟨total_memory, used_memory, cpu_count, load_average, uptime⟩
  | _ => none

/-- Serializer for `MonitorSnapshot`. -/
def MonitorSnapshot.toJson (s : MonitorSnapshot) : Json :=
  .obj [("timestamp", .str s.timestamp),
        ("processes", .arr (s.processes.map ProcessInfo.toJson)),
        ("network_connections",
          .arr (s.network_connections.map NetworkConnection.toJson)),
        ("system_info", s.system_info.toJson)]

/-- Deserializer for `MonitorSnapshot`. -/
def MonitorSnapshot.ofJson (j : Json) : Option MonitorSnapshot :=
  match j with
  | .obj fields => do
    let timestamp ← (Json.getField fields "timestamp").bind Json.asStr
    let processes ← (Json.getField fields "processes").bind
      (Json.asListOf ProcessInfo.ofJson)
    let network_connections ← (Json.getField fields "network_connections").bind
      (Json.asListOf NetworkConnection.ofJson)
    let system_info ← (Json.getField fields "system_info").bind
      SystemSnapshot.ofJson
    some ⟨timestamp, processes, network_connections, system_info⟩
  | _ => none

/-- Serializer for `StealthConfig`, field for field in declaration order. -/
def StealthConfig.toJson (c : StealthConfig) : Json :=
  .obj [("hidden_processes", .arr (c.hidden_processes.map Json.str)),
        ("renamed_processes",
          .obj (c.renamed_processes.map (fun kv => (kv.1, Json.str kv.2)))),
        ("hidden_pids", .arr (c.hidden_pids.map Json.num))]

/-- Deserializer for `StealthConfig`. -/
def StealthConfig.ofJson (j : Json) : Option StealthConfig :=
  match j with
  | .obj fields => do
    let hidden_processes ← (Json.getField fields "hidden_processes").bind
      (Json.asListOf Json.asStr)
    let renamed_processes ← (Json.getField fields "renamed_processes").bind
      Json.asStrPairs
    let hidden_pids ← (Json.getField fields "hidden_pids").bind
      (Json.asListOf Json.asNat)
    some ⟨hidden_processes, renamed_processes, hidden_pids⟩
  | _ => none

open List

/-! ### Concrete sample values used in the closed statements below -/

/-- A minimal process row with the given pid, name and cpu share. -/
def sampleProc (pid : Nat) (name : String) (cpu : Rat) : ProcessInfo :=
  { pid := pid, name := name, cmd := [], cpu_usage := cpu, memory := 0,
    parent_pid := none, start_time := 0, user_id := none,
    status := "Run", exe_path := none }

/-- Neutral system counters for sample snapshots. -/
def sampleSystem : SystemSnapshot :=
  { total_memory := 0, used_memory := 0, cpu_count := 0,
    load_average := 0, uptime := 0 }

/-- A snapshot holding exactly the given process rows. -/
def sampleSnap (procs : List ProcessInfo) : MonitorSnapshot :=
  { timestamp := "t", processes := procs, network_connections := [],
    system_info := sampleSystem }

/-- A policy hiding the name "evil" and the pid 4242. -/
def hideEvil : StealthConfig :=
  { hidden_processes := ["evil"], renamed_processes := [],
    hidden_pids := [4242] }

/-- A process row that `hideEvil` marks as hidden twice over. -/
def evilProc : ProcessInfo := sampleProc 4242 "evil" 0

/-- A policy renaming "chrome" to "browser". -/
def renameChrome : StealthConfig :=
  { hidden_processes := [], renamed_processes := [("chrome", "browser")],
    hidden_pids := [] }

/-- A process row named "chrome". -/
def chromeProc : ProcessInfo := sampleProc 7 "chrome" 0

/-! ### Helper lemmas -/

/-- After `hide_process`, the name is in the hidden list. -/
theorem mem_hide_process (c : StealthConfig) (n : String) :
    n ∈ (c.hide_process n).hidden_processes := by
  unfold StealthConfig.hide_process
  by_cases h : n ∈ c.hidden_processes <;> simp [h]

/-- After `hide_pid`, the pid is in the hidden list. -/
theorem mem_hide_pid (c : StealthConfig) (p : Nat) :
    p ∈ (c.hide_pid p).hidden_pids := by
  unfold StealthConfig.hide_pid
  by_cases h : p ∈ c.hidden_pids <;> simp [h]

/-- `lookupExact` misses when no key equals the search key. -/
theorem lookupExact_eq_none (l : List (String × String)) (key : String)
    (h : ∀ kv ∈ l, kv.1 ≠ key) : lookupExact l key = none := by
  induction l with
  | nil => rfl
  | cons kv rest ih =>
    obtain ⟨k, v⟩ := kv
    have hk : k ≠ key := h (k, v) (by simp)
    simp only [lookupExact, beq_iff_eq, hk, if_false]
    exact ih (fun kv hkv => h kv (by simp [hkv]))

/-- C7 (claim): hiding a name or a pid that is already hidden is a no-op,
so `hide_process` and `hide_pid` are idempotent in-memory updates. -/
theorem hide_idempotent :
    (∀ (c : StealthConfig) (n : String),
      n ∈ c.hidden_processes → c.hide_process n = c) ∧
    (∀ (c : StealthConfig) (n : String),
      (c.hide_process n).hide_process n = c.hide_process n) ∧
    (∀ (c : StealthConfig) (p : Nat),
      p ∈ c.hidden_pids → c.hide_pid p = c) ∧
    (∀ (c : StealthConfig) (p : Nat),
      (c.hide_pid p).hide_pid p = c.hide_pid p) := by
  have hname : ∀ (c : StealthConfig) (n : String),
      n ∈ c.hidden_processes → c.hide_process n = c := by
    intro c n h
    unfold StealthConfig.hide_process
    simp [h]
  have hpid : ∀ (c : StealthConfig) (p : Nat),
      p ∈ c.hidden_pids → c.hide_pid p = c := by
    intro c p h
    unfold StealthConfig.hide_pid
    simp [h]
  exact ⟨hname,
    fun c n => hname _ n (mem_hide_process c n),
    hpid,
    fun c p => hpid _ p (mem_hide_pid c p)⟩

/-- C7 witness: hiding "bash" twice from a policy that already hides it,
at concrete inputs. -/
theorem hide_idempotent_witness :
    StealthConfig.hide_process
        { hidden_processes := ["bash"], renamed_processes := [],
          hidden_pids := [9] } "bash" =
      { hidden_processes := ["bash"], renamed_processes := [],
        hidden_pids := [9] } ∧
    StealthConfig.hide_pid
        { hidden_processes := ["bash"], renamed_processes := [],
          hidden_pids := [9] } 9 =
      { hidden_processes := ["bash"], renamed_processes := [],
        hidden_pids := [9] } :=
  ⟨hide_idempotent.1 _ "bash" (by decide),
   hide_idempotent.2.2.1 _ 9 (by decide)⟩

/-- C10 (claim): `unhide_process` removes only entries exactly equal to the
argument, while hide matching is case-insensitive substring; on the policy
hiding "Chrome", unhiding "chrome" removes nothing, and "chrome" stays
hidden. -/
theorem unhide_exact_only :
    (∀ (c : StealthConfig) (n m : String),
      m ∈ c.hidden_processes → m ≠ n →
      m ∈ (c.unhide_process n).hidden_processes) ∧
    (StealthConfig.unhide_process
        { hidden_processes := ["Chrome"], renamed_processes := [],
          hidden_pids := [] } "chrome").hidden_processes = ["Chrome"] ∧
    (StealthConfig.unhide_process
        { hidden_processes := ["Chrome"], renamed_processes := [],
          hidden_pids := [] } "chrome").is_process_hidden "chrome" = true := by
  refine ⟨?_, by decide, by decide⟩
  intro c n m hm hne
  unfold StealthConfig.unhide_process
  simp [List.mem_filter, hm, hne]

/-- C10 witness: the surviving entry "Chrome" after unhiding "chrome", at
concrete inputs. -/
theorem unhide_exact_only_witness :
    "Chrome" ∈ (StealthConfig.unhide_process
        { hidden_processes := ["Chrome"], renamed_processes := [],
          hidden_pids := [] } "chrome").hidden_processes :=
  unhide_exact_only.1 _ "chrome" "Chrome" (by decide) (by decide)

/-- C9 (claim): when no rename entry matches a raw name, neither by exact
key nor by case-insensitive substring, `get_display_name` returns the raw
name unchanged. -/
theorem get_display_name_unmatched (c : StealthConfig) (name : String)
    (h : ∀ kv ∈ c.renamed_processes,
      kv.1 ≠ name ∧ containsLower name kv.1 = false) :
    c.get_display_name name = name := by
  unfold StealthConfig.get_display_name
  have hlook : lookupExact c.renamed_processes name = none :=
    lookupExact_eq_none _ _ (fun kv hkv => (h kv hkv).1)
  have hfind : c.renamed_processes.find?
      (fun kv => containsLower name kv.1) = none := by
    rw [List.find?_eq_none]
    intro kv hkv
    simp [(h kv hkv).2]
  rw [hlook, hfind]

/-- C9 witness: a policy renaming only "chrome" leaves "firefox"
unchanged. -/
theorem get_display_name_unmatched_witness :
    StealthConfig.get_display_name renameChrome "firefox" = "firefox" :=
  get_display_name_unmatched renameChrome "firefox" (by decide)

/-- C1 counterexample: the policy `hideEvil` hides the name "evil" and the
pid 4242, yet `collect_snapshot` keeps the matching record in the snapshot
(the collection loop never consults the policy), so it is visible to every
downstream consumer. -/
theorem collect_keeps_hidden_counterexample :
    evilProc ∈ (collect_snapshot none false [evilProc] [] sampleSystem
      "t").processes ∧
    hideEvil.is_process_hidden evilProc.name = true ∧
    hideEvil.is_pid_hidden evilProc.pid = true := by
  refine ⟨?_, by decide, by decide⟩
  simp [collect_snapshot, collect_processes, filter_keeps]

/-- C1 amended: `collect_snapshot` is independent of any visibility policy —
every enumerated process that passes the optional name filter appears in the
snapshot, even when an active rule hides its raw name or its pid. -/
theorem collect_keeps_hidden (c : StealthConfig) (filter : Option String)
    (network : Bool) (procs : List ProcessInfo)
    (ifaces : List InterfaceCounters) (sys : SystemSnapshot) (now : String)
    (p : ProcessInfo) (hp : p ∈ procs)
    (_hhidden : c.is_process_hidden p.name = true ∨
      c.is_pid_hidden p.pid = true)
    (hfilter : filter_keeps filter p.name = true) :
    p ∈ (collect_snapshot filter network procs ifaces sys now).processes := by
  simp only [collect_snapshot, collect_processes]
  exact List.mem_filter.mpr ⟨hp, hfilter⟩

/-- C1 witness: the hidden-marked record at concrete inputs. -/
theorem collect_keeps_hidden_witness :
    evilProc ∈ (collect_snapshot none true [evilProc] [] sampleSystem
      "t").processes :=
  collect_keeps_hidden hideEvil none true [evilProc] [] sampleSystem "t"
    evilProc (by decide) (Or.inl (by decide)) (by decide)

/-- C3 counterexample: with the policy renaming "chrome" to "browser", the
record named "chrome" passes the filter "chrome" and lands in the snapshot,
although its policy-resolved display name "browser" does not contain the
filter — the filter is tested against the raw name, before any renaming. -/
theorem filter_raw_name_counterexample :
    chromeProc ∈ collect_processes (some "chrome") [chromeProc] ∧
    containsLower (renameChrome.get_display_name chromeProc.name)
      "chrome" = false := by
  refine ⟨?_, by decide⟩
  simp [collect_processes, filter_keeps]
  decide

/-- C3 amended: a configured name filter is tested against the raw process
name (case-insensitive substring); membership in the collected list is
exactly raw-name matching, so renames never influence the filter. -/
theorem filter_tests_raw_name (f : String) (procs : List ProcessInfo)
    (p : ProcessInfo) :
    p ∈ collect_processes (some f) procs ↔
      p ∈ procs ∧ containsLower p.name f = true := by
  simp [collect_processes, filter_keeps, List.mem_filter]

/-- C2 counterexample: with file contents present but unparsable, the
loader reports the corrupt file, yet `StealthManager::new` swallows the
error and silently substitutes the default empty policy — the session does
not fail. -/
theorem config_corrupt_counterexample :
    load_config (fun _ => none) (some "garbage") =
      .error .configCorrupt ∧
    stealth_manager_new (fun _ => none) (some "garbage") =
      StealthConfig.defaultConfig := by
  exact ⟨rfl, rfl⟩

/-- C2 amended: when the policy file exists but does not parse,
`load_config` itself returns the corrupt-config error, but
`StealthManager::new` replaces any load error by the default empty policy,
so the unparsable user configuration is silently discarded rather than
failing the session. -/
theorem corrupt_config_defaulted (parse : String → Option StealthConfig)
    (content : String) (h : parse content = none) :
    load_config parse (some content) = .error .configCorrupt ∧
    stealth_manager_new parse (some content) =
      StealthConfig.defaultConfig := by
  constructor
  · simp [load_config, h]
  · simp [stealth_manager_new, load_config, h]

/-- C2 witness: the amended statement at a concrete failing parse. -/
theorem corrupt_config_defaulted_witness :
    load_config (fun _ => none) (some "oops") = .error .configCorrupt ∧
    stealth_manager_new (fun _ => none) (some "oops") =
      StealthConfig.defaultConfig :=
  corrupt_config_defaulted (fun _ => none) "oops" rfl

/-- C4 counterexample: on the first cycle the previous-process map is empty,
and for the non-empty snapshot holding pid 1 the computed new-PID set is the
whole current set {1}, not the empty set; only the alert panel is
suppressed. -/
theorem first_cycle_counterexample :
    new_pids ∅ (sampleSnap [sampleProc 1 "init" 0]).pidSet = {1} ∧
    ({1} : Finset Nat) ≠ ∅ ∧
    alert_rendered true ∅ (sampleSnap [sampleProc 1 "init" 0]) = false := by
  refine ⟨by decide, by decide, ?_⟩
  simp [alert_rendered, Finset.not_nonempty_empty]

/-- C4 amended: on the first cycle the computed new-PID set equals the full
current PID set rather than being empty, but the alert panel is still never
rendered then; in general the panel is rendered exactly when alerting is
enabled, the new-PID set is non-empty, and the previous-process map is
non-empty (not the first cycle). -/
theorem first_cycle_no_alert :
    (∀ s : MonitorSnapshot, new_pids ∅ s.pidSet = s.pidSet) ∧
    (∀ (alert : Bool) (s : MonitorSnapshot),
      alert_rendered alert ∅ s = false) ∧
    (∀ (alert : Bool) (previous : Finset Nat) (s : MonitorSnapshot),
      alert_rendered alert previous s = true ↔
        alert = true ∧ (new_pids previous s.pidSet).Nonempty ∧
          previous.Nonempty) := by
  refine ⟨fun s => ?_, fun alert s => ?_, fun alert previous s => ?_⟩
  · simp [new_pids]
  · simp [alert_rendered, Finset.not_nonempty_empty]
  · simp [alert_rendered, Bool.and_eq_true, decide_eq_true_eq, and_assoc]

/-- C5 (claim): when the current PID set is the previous one plus a single
genuinely new pid X, the computed new-PID set is exactly the singleton
{X}. -/
theorem new_pids_singleton (sPrev sCur : MonitorSnapshot) (X : Nat)
    (hX : X ∉ sPrev.pidSet) (hcur : sCur.pidSet = insert X sPrev.pidSet) :
    new_pids sPrev.pidSet sCur.pidSet = {X} := by
  rw [hcur]
  ext a
  simp only [new_pids, Finset.mem_sdiff, Finset.mem_insert,
    Finset.mem_singleton]
  constructor
  · rintro ⟨ha | ha, hn⟩
    · exact ha
    · exact absurd ha hn
  · rintro rfl
    exact ⟨Or.inl rfl, hX⟩

/-- C5 witness: previous pids {1, 2}, current pids {1, 2, 3}, new pid 3. -/
theorem new_pids_singleton_witness :
    new_pids (sampleSnap [sampleProc 1 "a" 0, sampleProc 2 "b" 0]).pidSet
      (sampleSnap [sampleProc 1 "a" 0, sampleProc 2 "b" 0,
        sampleProc 3 "c" 0]).pidSet = {3} :=
  new_pids_singleton
    (sampleSnap [sampleProc 1 "a" 0, sampleProc 2 "b" 0])
    (sampleSnap [sampleProc 1 "a" 0, sampleProc 2 "b" 0,
      sampleProc 3 "c" 0])
    3 (by decide) (by decide)

/-- The presenter comparator is transitive. -/
theorem cpuDescLE_trans :
    ∀ a b c : ProcessInfo, cpuDescLE a b → cpuDescLE b c → cpuDescLE a c := by
  intro a b c hab hbc
  simp only [cpuDescLE, decide_eq_true_eq] at *
  exact le_trans hbc hab

/-- The presenter comparator is total. -/
theorem cpuDescLE_total :
    ∀ a b : ProcessInfo, cpuDescLE a b || cpuDescLE b a := by
  intro a b
  simp only [cpuDescLE, Bool.or_eq_true, decide_eq_true_eq]
  exact le_total b.cpu_usage a.cpu_usage

/-- C6 (claim): the presenter renders at most 20 rows, in non-increasing
cpu order, and rows of equal cpu keep their original relative enumeration
order: for every cpu value the equal-cpu rows of the sorted list are exactly
the equal-cpu rows of the snapshot in their original order, and the rendered
prefix selects them in that same order (a sublist of the original). -/
theorem display_rows_sorted_stable (s : MonitorSnapshot) :
    (display_rows s).length ≤ 20 ∧
    List.Pairwise (fun a b => b.cpu_usage ≤ a.cpu_usage) (display_rows s) ∧
    ∀ v : Rat,
      ((s.processes.mergeSort cpuDescLE).filter
          (fun p => decide (p.cpu_usage = v))) =
        s.processes.filter (fun p => decide (p.cpu_usage = v)) ∧
      ((display_rows s).filter (fun p => decide (p.cpu_usage = v))) <+
        s.processes.filter (fun p => decide (p.cpu_usage = v)) := by
  refine ⟨?_, ?_, ?_⟩
  · exact List.length_take_le 20 _
  · have hs := List.sorted_mergeSort cpuDescLE_trans cpuDescLE_total
      s.processes
    have hs' : List.Pairwise (fun a b => b.cpu_usage ≤ a.cpu_usage)
        (s.processes.mergeSort cpuDescLE) :=
      hs.imp (fun hab => by
        simpa only [cpuDescLE, decide_eq_true_eq] using hab)
    exact hs'.sublist (List.take_sublist 20 _)
  · intro v
    set p : ProcessInfo → Bool := fun q => decide (q.cpu_usage = v) with hp
    have hall : ∀ a ∈ s.processes.filter p, ∀ b ∈ s.processes.filter p,
        cpuDescLE a b := by
      intro a ha b hb
      have ha' := List.of_mem_filter ha
      have hb' := List.of_mem_filter hb
      simp only [hp, decide_eq_true_eq] at ha' hb'
      simp [cpuDescLE, ha', hb']
    have hpair : (s.processes.filter p).Pairwise
        (fun a b => cpuDescLE a b) :=
      List.pairwise_of_forall_mem_list hall
    have hsub : s.processes.filter p <+ s.processes.mergeSort cpuDescLE :=
      List.sublist_mergeSort cpuDescLE_trans cpuDescLE_total hpair
        (List.filter_sublist s.processes)
    have hfsub : (s.processes.filter p).filter p <+
        (s.processes.mergeSort cpuDescLE).filter p := hsub.filter p
    have hff : (s.processes.filter p).filter p = s.processes.filter p := by
      rw [List.filter_filter]
      exact List.filter_congr (fun a _ => by cases h : p a <;> simp [h])
    rw [hff] at hfsub
    have hperm : (s.processes.mergeSort cpuDescLE).filter p ~
        s.processes.filter p :=
      (List.mergeSort_perm s.processes cpuDescLE).filter p
    have heq : (s.processes.mergeSort cpuDescLE).filter p =
        s.processes.filter p :=
      (hfsub.eq_of_length hperm.length_eq.symm).symm
    refine ⟨heq, ?_⟩
    have htake : (display_rows s).filter p <+
        (s.processes.mergeSort cpuDescLE).filter p :=
      (List.take_sublist 20 _).filter p
    rw [heq] at htake
    exact htake

/-- Element-wise deserialization inverts element-wise serialization. -/
theorem parseList_map (f : Json → Option α) (g : α → Json)
    (h : ∀ x, f (g x) = some x) :
    ∀ l : List α, parseList f (l.map g) = some l := by
  intro l
  induction l with
  | nil => rfl
  | cons x rest ih => simp [parseList, h x, ih]

/-- Entry-wise deserialization of a string-to-string object inverts its
serialization. -/
theorem parseStrPairs_map :
    ∀ l : List (String × String),
      parseStrPairs (l.map (fun kv => (kv.1, Json.str kv.2))) = some l := by
  intro l
  induction l with
  | nil => rfl
  | cons kv rest ih =>
    obtain ⟨k, v⟩ := kv
    simp [parseStrPairs, ih]

/-- Round trip for one process row. -/
theorem processInfo_roundtrip (p : ProcessInfo) :
    ProcessInfo.ofJson p.toJson = some p := by
  obtain ⟨pid, name, cmd, cpu, mem, ppid, st, uid, status, exe⟩ := p
  have hcmd : Json.asListOf Json.asStr (Json.arr (cmd.map Json.str)) =
      some cmd := by
    simp only [Json.asListOf]
    exact parseList_map Json.asStr Json.str (fun x => rfl) cmd
  cases ppid <;> cases uid <;> cases exe <;>
    simp [ProcessInfo.toJson, ProcessInfo.ofJson, Json.getField,
      Json.asNat, Json.asStr, Json.asFlo, Json.asOptNat, Json.asOptStr,
      jsonOfOptNat, jsonOfOptStr, hcmd]

/-- Round trip for one network row. -/
theorem networkConnection_roundtrip (c : NetworkConnection) :
    NetworkConnection.ofJson c.toJson = some c := by
  obtain ⟨pn, pid, la, ra, st, pr⟩ := c
  simp [NetworkConnection.toJson, NetworkConnection.ofJson, Json.getField,
    Json.asNat, Json.asStr]

/-- Round trip for the system counters. -/
theorem systemSnapshot_roundtrip (s : SystemSnapshot) :
    SystemSnapshot.ofJson s.toJson = some s := by
  obtain ⟨tm, um, cc, la, up⟩ := s
  simp [SystemSnapshot.toJson, SystemSnapshot.ofJson, Json.getField,
    Json.asNat, Json.asFlo]

/-- C8 (claim): serializing the visibility policy or a snapshot to its
structured form and parsing it back yields field-for-field equal data, for
every policy and every snapshot value. -/
theorem serialization_roundtrip :
    (∀ c : StealthConfig, StealthConfig.ofJson c.toJson = some c) ∧
    (∀ s : MonitorSnapshot, MonitorSnapshot.ofJson s.toJson = some s) := by
  constructor
  · intro c
    obtain ⟨hp, rp, hpids⟩ := c
    simp [StealthConfig.toJson, StealthConfig.ofJson, Json.getField,
      Json.asListOf, Json.asStrPairs, Json.asNat, Json.asStr,
      parseList_map Json.asStr Json.str (fun x => rfl),
      parseList_map Json.asNat Json.num (fun x => rfl),
      parseStrPairs_map]
  · intro s
    obtain ⟨ts, procs, net, sys⟩ := s
    simp [MonitorSnapshot.toJson, MonitorSnapshot.ofJson, Json.getField,
      Json.asListOf, Json.asStr,
      parseList_map ProcessInfo.ofJson ProcessInfo.toJson
        processInfo_roundtrip,
      parseList_map NetworkConnection.ofJson NetworkConnection.toJson
        networkConnection_roundtrip,
      systemSnapshot_roundtrip]
